import Mathlib

/-!
Verification of the kuintessence compute-node agent against its
natural-language specification.  The Rust sources are shallowly embedded:
pure decision logic becomes Lean functions, the supervisor/worker
concurrency becomes an explicit step relation on a state record, and
machine integers become `Nat` with explicit wrap-around where Rust
release-mode arithmetic wraps.
-/

/-! ## Shared domain model (src/domain/src/model/entity) -/

/-- Scheduler job state, from `domain/src/model/entity/job.rs`. -/
inductive JobState
  | Queuing
  | Running
  | Suspended
  | Completing
  | Completed
  | Failed
  | Unknown
deriving DecidableEq, Repr

/-- Task status transmitted to the controller, from
`domain/src/model/entity/task/mod.rs`. -/
inductive TaskStatus
  | Queued
  | Started
  | Completed
  | Failed
  | Paused
  | Resumed
  | Cancelled
deriving DecidableEq, Repr

/-! ## LSF state decoding (job_scheduler/lsf/lsf_client.rs) -/

/-- Decoding of an LSF `bjobs` state string into the uniform `JobState`,
embedding the `match item.state.as_str()` expression shared by
`LsfClient::get_lsf_jobs` and `LsfClient::get_lsf_job`
(lsf_client.rs lines 163-168 and 185-190).  Note that the third match arm
of the source is the single string literal containing a vertical bar. -/
def lsfDecodeState (s : String) : JobState :=
  if s = "EXIT" then JobState.Failed
  else if s = "DONE" then JobState.Completed
  else if s = "RUN|EXITING" then JobState.Running
  else JobState.Unknown

/-- Decoding as the specification words it: `RUN` and `EXITING` each map to
`Running` (spec section 4.6). -/
def lsfDecodeStateSpec (s : String) : JobState :=
  if s = "EXIT" then JobState.Failed
  else if s = "DONE" then JobState.Completed
  else if s = "RUN" ∨ s = "EXITING" then JobState.Running
  else JobState.Unknown

/-! ## Pausable future (infrastructure/src/sync/pause.rs) -/

/-- Outcome of one call to `PausableFuture::poll`: either the inner future
was polled (its own result is then returned), or `Pending` was returned
without touching the inner future. -/
inductive PollOutcome
  | polledInner
  | pending
deriving DecidableEq, Repr

/-- One poll of a `PausableFuture` (pause.rs lines 53-67), parameterised by
the two values the atomic pause flag can be observed to hold: `flag1` at the
first load, `flag2` at the load performed after registering the waker (the
second load only happens when the first saw the flag set).  The returned
`Bool` records whether the waker was registered during this poll. -/
def pausablePoll (flag1 flag2 : Bool) : Bool × PollOutcome :=
  if !flag1 then
    (false, PollOutcome.polledInner)
  else if !flag2 then
    -- flag cleared between register and the double-check: poll inner
    (true, PollOutcome.polledInner)
  else
    (true, PollOutcome.pending)

/-! ## Collect-output rules (service/src/collect_output.rs) -/

/-- Wrapping subtraction on `usize` values (both below `2 ^ 64`), the
behaviour of Rust release-mode `a - b` when the checked result would
underflow. -/
def usizeSub (a b : Nat) : Nat :=
  (2 ^ 64 + a - b) % 2 ^ 64

/-- The `CollectRule::BottomLines(n)` arm of `CollectOutputService::run`
(collect_output.rs lines 103-106), at the level of the line list produced
by `input.lines()`: `lines` is the line count and the code skips
`lines - n` lines, a `usize` subtraction. -/
def bottomLines (ls : List String) (n : Nat) : List String :=
  ls.drop (usizeSub ls.length n)

/-- The `CollectRule::TopLines(n)` arm (collect_output.rs line 107). -/
def topLines (ls : List String) (n : Nat) : List String :=
  ls.take n

/-! ## Download HEAD size probe (download_file/mod.rs lines 179-223) -/

/-- A HEAD response as far as `DownloadFileService::run` inspects it: the
HTTP status code and the raw `Content-Length` header value when present.
`none` at the call site below stands for a transport-level failure of
`send()`. -/
structure HeadResponse where
  status : Nat
  contentLength : Option String
deriving DecidableEq, Repr

/-- Decimal accumulation used by `parseU64`: consume digits left to right,
failing on the first non-digit character. -/
def digitsToNat : List Char → Nat → Option Nat
  | [], acc => some acc
  | c :: cs, acc => if c.isDigit then digitsToNat cs (acc * 10 + (c.toNat - 48)) else none

/-- `u64::from_str` on a plain decimal string: `some` exactly when the
string is non-empty, all digits, and the value fits in 64 bits (a leading
sign is also rejected here; Rust additionally tolerates a leading plus,
which no real `Content-Length` carries). -/
def parseU64 (s : String) : Option Nat :=
  match s.data with
  | [] => none
  | l =>
    match digitsToNat l 0 with
    | some n => if n < 2 ^ 64 then some n else none
    | none => none

/-- The file-size computation in `DownloadFileService::run`
(mod.rs lines 179-191): `send().await.ok()` keeps any received response
(the status code is never examined), then the `Content-Length` header is
fetched and parsed, and every failure along the chain collapses to the
default `0` via `unwrap_or_default()`. -/
def headFileSize (resp : Option HeadResponse) : Nat :=
  ((resp.bind fun r => r.contentLength).bind parseU64).getD 0

/-- Rust `u64::div_ceil` (no overflow for the sizes in range here). -/
def divCeil (n b : Nat) : Nat :=
  (n + b - 1) / b

/-- How `DownloadFileService::run` transfers the body, from the branch on
`file_size == 0` (mod.rs lines 193-218): a single unranged GET when the
probed size is zero, otherwise a chunked transfer of
`file_size.div_ceil(block_size)` blocks. -/
inductive DownloadMode
  | singleGet
  | chunked (blockCount : Nat)
deriving DecidableEq, Repr

/-- The mode chosen by `DownloadFileService::run` for a non-Text download,
as a function of the HEAD outcome and the configured block size. -/
def downloadMode (resp : Option HeadResponse) (blockSize : Nat) : DownloadMode :=
  let size := headFileSize resp
  if size = 0 then DownloadMode.singleGet
  else DownloadMode.chunked (divCeil size blockSize)

/-! ## Download worker byte ranges (download_file/supervisor.rs) -/

/-- What `DownloadFileWorker::run` (supervisor.rs lines 136-161) sends and
writes for its block: the inclusive byte range of the `Range` header and
the absolute file offset it seeks to before writing. -/
structure WorkerRequest where
  rangeStart : Nat
  rangeEnd : Nat
  header : String
  writeOffset : Nat
deriving DecidableEq, Repr

/-- The request computed by `DownloadFileWorker::run` from its block index:
`start = i * block_size`; `end = file_size - 1` when `i` is the
supervisor's `last_index` (set to `block_count - 1` in
`DownloadFileSupervisor::new`, line 109) and `start + block_size - 1`
otherwise; the worker then seeks to `start` before `write_all`. -/
def downloadWorkerRequest (fileSize blockSize lastIndex i : Nat) : WorkerRequest :=
  let start := i * blockSize
  let e := if i = lastIndex then fileSize - 1 else start + blockSize - 1
  { rangeStart := start
    rangeEnd := e
    header := s!"bytes={start}-{e}"
    writeOffset := start }

/-! ## Theorems -/

theorem divCeil_mul_ge (N B : Nat) (hB : 0 < B) : N ≤ divCeil N B * B := by
  unfold divCeil
  have h := Nat.div_add_mod (N + B - 1) B
  have h2 : (N + B - 1) % B < B := Nat.mod_lt _ hB
  rw [Nat.mul_comm]
  generalize B * ((N + B - 1) / B) = t at h ⊢
  omega

theorem divCeil_pred_mul_lt (N B : Nat) (hB : 0 < B) (hN : 0 < N) :
    (divCeil N B - 1) * B < N := by
  unfold divCeil
  have h1 : (N + B - 1) / B * B ≤ N + B - 1 := Nat.div_mul_le_self _ _
  have h2 : ((N + B - 1) / B - 1) * B = (N + B - 1) / B * B - B := by
    rw [Nat.sub_mul, Nat.one_mul]
  rw [h2]
  generalize (N + B - 1) / B * B = t at h1 ⊢
  omega

/-- C5: the LSF back-end decodes `EXIT` to `Failed` and `DONE` to
`Completed` as claimed, but the third match arm of the source is the single
literal string containing the bar, so the real states `RUN` and `EXITING`
both decode to `Unknown`, diverging from the claimed `Running`. -/
theorem lsf_decode_run_exiting_unknown :
    lsfDecodeState "EXIT" = JobState.Failed ∧
    lsfDecodeState "DONE" = JobState.Completed ∧
    lsfDecodeState "RUN" = JobState.Unknown ∧
    lsfDecodeState "EXITING" = JobState.Unknown ∧
    lsfDecodeState "RUN|EXITING" = JobState.Running ∧
    lsfDecodeStateSpec "RUN" = JobState.Running ∧
    lsfDecodeStateSpec "EXITING" = JobState.Running := by
  refine ⟨rfl, rfl, rfl, rfl, rfl, ?_, ?_⟩ <;> simp [lsfDecodeStateSpec]

/-- C6: one poll of a `PausableFuture` returns `Pending` exactly when the
pause flag was observed set both before and after waker registration; a
clear first check polls the inner future without registering; whenever the
first check saw the flag set the waker is registered, so a resume racing
with the poll either is seen by the double-check (the inner future is
polled) or happens after registration (the wake is delivered to the
registered waker) — it is never missed, and a future whose flag stays set
never polls its inner future. -/
theorem pausable_poll_double_check (flag1 flag2 : Bool) :
    ((pausablePoll flag1 flag2).2 = PollOutcome.pending ↔
      flag1 = true ∧ flag2 = true) ∧
    (flag1 = false →
      pausablePoll flag1 flag2 = (false, PollOutcome.polledInner)) ∧
    ((pausablePoll flag1 flag2).1 = true ↔ flag1 = true) ∧
    (flag1 = true → flag2 = false →
      (pausablePoll flag1 flag2).2 = PollOutcome.polledInner) := by
  cases flag1 <;> cases flag2 <;> simp [pausablePoll]

/-- C7: for a download of known size `N` with block size `B`, the worker
for block index `i < ceil(N/B)` requests exactly the inclusive byte range
`[i*B, min ((i+1)*B) N - 1]` (so the last block ends at `N - 1` and every
other block at `i*B + B - 1`) and writes the received bytes at absolute
offset `i*B`. -/
theorem download_worker_range (N B i : Nat) (hB : 0 < B) (hN : 0 < N)
    (hi : i < divCeil N B) :
    (downloadWorkerRequest N B (divCeil N B - 1) i).rangeStart = i * B ∧
    (downloadWorkerRequest N B (divCeil N B - 1) i).rangeEnd
      = min ((i + 1) * B) N - 1 ∧
    (downloadWorkerRequest N B (divCeil N B - 1) i).writeOffset = i * B := by
  have hge := divCeil_mul_ge N B hB
  have hq1 : 1 ≤ divCeil N B := by
    rcases Nat.eq_zero_or_pos (divCeil N B) with h0 | h
    · rw [h0] at hge; simp at hge; omega
    · exact h
  by_cases hlast : i = divCeil N B - 1
  · subst hlast
    refine ⟨rfl, ?_, rfl⟩
    have h2 : divCeil N B - 1 + 1 = divCeil N B := by omega
    have hmin : min ((divCeil N B - 1 + 1) * B) N = N := by
      rw [h2]; exact Nat.min_eq_right hge
    rw [hmin]
    simp [downloadWorkerRequest]
  · refine ⟨rfl, ?_, rfl⟩
    have hi2 : i + 1 ≤ divCeil N B - 1 := by omega
    have hle : (i + 1) * B ≤ (divCeil N B - 1) * B := Nat.mul_le_mul_right _ hi2
    have hlt := divCeil_pred_mul_lt N B hB hN
    have hmin : min ((i + 1) * B) N = (i + 1) * B :=
      Nat.min_eq_left (by omega)
    rw [hmin]
    simp only [downloadWorkerRequest, if_neg hlast]
    rw [Nat.add_mul, Nat.one_mul]

theorem download_worker_range_witness :
    0 < (16777216 : Nat) ∧ 0 < (41943040 : Nat) ∧ 2 < divCeil 41943040 16777216 ∧
    ((downloadWorkerRequest 41943040 16777216 (divCeil 41943040 16777216 - 1) 2).rangeStart
        = 2 * 16777216 ∧
      (downloadWorkerRequest 41943040 16777216 (divCeil 41943040 16777216 - 1) 2).rangeEnd
        = min ((2 + 1) * 16777216) 41943040 - 1 ∧
      (downloadWorkerRequest 41943040 16777216 (divCeil 41943040 16777216 - 1) 2).writeOffset
        = 2 * 16777216) :=
  ⟨by decide, by decide, by decide,
    download_worker_range 41943040 16777216 2 (by decide) (by decide) (by decide)⟩

/-- C9: the `BottomLines(n)` rule subtracts `n` from the line count in
`usize`; on a one-line input with `n = 2` the subtraction underflows (to
`2^64 - 1` under release-mode wrapping, a panic under checked arithmetic),
so the skip discards every line and the output is empty rather than the
whole input the rule is specified to return. -/
theorem bottomLines_underflow_on_short_input :
    usizeSub 1 2 = 2 ^ 64 - 1 ∧
    bottomLines ["a"] 2 = [] ∧
    bottomLines ["a", "b", "c"] 2 = ["b", "c"] := by
  refine ⟨by decide, ?_, by decide⟩
  have h : (["a"] : List String).length ≤ usizeSub 1 2 := by decide
  simpa [bottomLines] using List.drop_eq_nil_of_le h

/-- C10 counterexample: the claim says a non-success HEAD response makes
`start` treat the size as 0 and fall back to the single unranged GET, but
`DownloadFileService::run` never examines the response status — a 404
whose `Content-Length` header parses to 10 yields size 10 and a chunked
transfer. -/
theorem head_nonsuccess_response_still_sized :
    headFileSize (some ⟨404, some "10"⟩) = 10 ∧
    downloadMode (some ⟨404, some "10"⟩) 16777216 = DownloadMode.chunked 1 := by
  constructor <;> rfl

/-- C10 amended: if the HEAD transport fails (`send()` returns an error) or
the response carries no parseable `Content-Length` value, the probed size
is 0 and `run` falls back to the single unranged GET, never failing the
task and never producing a chunked transfer; the response status code is
irrelevant to the size computation. -/
theorem head_failure_single_get (resp : Option HeadResponse) (B : Nat)
    (h : ∀ r s, resp = some r → r.contentLength = some s → parseU64 s = none) :
    headFileSize resp = 0 ∧
    downloadMode resp B = DownloadMode.singleGet ∧
    (∀ st st' cl, headFileSize (some ⟨st, cl⟩) = headFileSize (some ⟨st', cl⟩)) := by
  have hz : headFileSize resp = 0 := by
    match resp with
    | none => rfl
    | some r =>
      match hc : r.contentLength with
      | none => simp [headFileSize, hc]
      | some s => simp [headFileSize, hc, h r s rfl hc]
  exact ⟨hz, by simp [downloadMode, hz], fun st st' cl => rfl⟩

theorem head_failure_single_get_witness :
    headFileSize (some ⟨500, some "xyz"⟩) = 0 ∧
    downloadMode (some ⟨500, some "xyz"⟩) 4096 = DownloadMode.singleGet ∧
    (∀ st st' cl, headFileSize (some ⟨st, cl⟩) = headFileSize (some ⟨st', cl⟩)) :=
  head_failure_single_get (some ⟨500, some "xyz"⟩) 4096
    (by intro r s hr hs; cases hr; cases hs; rfl)

/-! ## Periodic job refresh (service/src/job.rs) -/

/-- Effect of one `JobServiceImpl::refresh` on a single tracked task:
the status report issued, if any, and the job state stored in the map
afterwards (`none` means the entry was removed). -/
structure RefreshEffect where
  report : Option TaskStatus
  newStored : Option JobState
deriving DecidableEq, Repr

/-- One `JobServiceImpl::refresh` step (job.rs lines 166-212) for a task
whose stored job has state `pre` when the freshly fetched job has state
`new`: the `match job.state` with its inner `match pre_state`, including
which branches re-insert the fetched job, which leave the entry untouched,
and which remove it. -/
def refreshStep (pre new : JobState) : RefreshEffect :=
  match new with
  | JobState.Queuing => ⟨none, some pre⟩
  | JobState.Running | JobState.Completing =>
    match pre with
    | JobState.Queuing => ⟨some TaskStatus.Started, some new⟩
    | JobState.Suspended => ⟨some TaskStatus.Resumed, some new⟩
    | _ => ⟨none, some pre⟩
  | JobState.Suspended =>
    if pre ≠ JobState.Suspended then ⟨some TaskStatus.Paused, some new⟩
    else ⟨none, some pre⟩
  | JobState.Failed | JobState.Unknown => ⟨some TaskStatus.Failed, none⟩
  | JobState.Completed => ⟨some TaskStatus.Completed, none⟩

/-- What `JobServiceImpl::start` stores in the job map after the initial
poll (job.rs lines 108-126): the job is inserted for `Queuing`, `Running`,
`Completing` and `Suspended`, and not inserted when the first poll already
shows a terminal state. -/
def startStored (initial : JobState) : Option JobState :=
  match initial with
  | JobState.Queuing => some JobState.Queuing
  | JobState.Running => some JobState.Running
  | JobState.Completing => some JobState.Completing
  | JobState.Suspended => some JobState.Suspended
  | JobState.Failed | JobState.Unknown | JobState.Completed => none

/-- States that can actually sit in the job map between refreshes. -/
def Storable (s : JobState) : Prop :=
  s = JobState.Queuing ∨ s = JobState.Running ∨
    s = JobState.Completing ∨ s = JobState.Suspended

instance (s : JobState) : Decidable (Storable s) := by
  unfold Storable; infer_instance

theorem startStored_storable (s s' : JobState) (h : startStored s = some s') :
    Storable s' := by
  cases s <;> simp [startStored] at h <;> simp [Storable, ← h]

theorem refreshStep_storable (pre new s' : JobState) (hp : Storable pre)
    (h : (refreshStep pre new).newStored = some s') : Storable s' := by
  cases pre <;> cases new <;> simp_all [refreshStep, Storable]

/-- C8: the periodic refresh is idempotent on scheduler state — for any
state that can actually be stored in the job map, a refresh that fetches
the same state issues no report and leaves the entry unchanged (so two
successive refreshes with no underlying transition issue zero reports) —
and a report is issued only on the specified transitions:
`Started` exactly for `Queuing → Running/Completing`, `Resumed` exactly
for `Suspended → Running/Completing`, `Paused` exactly on entering
`Suspended` from elsewhere, `Failed` exactly on fetching
`Failed`/`Unknown` and `Completed` exactly on fetching `Completed`, the
latter two removing the entry from the map. -/
theorem refresh_idempotent_and_transitions (pre new : JobState)
    (hp : Storable pre) :
    (refreshStep pre pre = ⟨none, some pre⟩) ∧
    ((refreshStep pre new).report = some TaskStatus.Started ↔
      pre = JobState.Queuing ∧
        (new = JobState.Running ∨ new = JobState.Completing)) ∧
    ((refreshStep pre new).report = some TaskStatus.Resumed ↔
      pre = JobState.Suspended ∧
        (new = JobState.Running ∨ new = JobState.Completing)) ∧
    ((refreshStep pre new).report = some TaskStatus.Paused ↔
      pre ≠ JobState.Suspended ∧ new = JobState.Suspended) ∧
    ((refreshStep pre new).report = some TaskStatus.Failed ↔
      new = JobState.Failed ∨ new = JobState.Unknown) ∧
    ((refreshStep pre new).report = some TaskStatus.Completed ↔
      new = JobState.Completed) ∧
    ((refreshStep pre new).newStored = none ↔
      new = JobState.Failed ∨ new = JobState.Unknown ∨
        new = JobState.Completed) := by
  revert hp
  cases pre <;> cases new <;> decide

theorem refresh_idempotent_and_transitions_witness :
    Storable JobState.Running ∧
    ((refreshStep JobState.Running JobState.Running
        = ⟨none, some JobState.Running⟩) ∧
      ((refreshStep JobState.Running JobState.Completed).report
          = some TaskStatus.Started ↔
        JobState.Running = JobState.Queuing ∧
          (JobState.Completed = JobState.Running ∨
            JobState.Completed = JobState.Completing)) ∧
      ((refreshStep JobState.Running JobState.Completed).report
          = some TaskStatus.Resumed ↔
        JobState.Running = JobState.Suspended ∧
          (JobState.Completed = JobState.Running ∨
            JobState.Completed = JobState.Completing)) ∧
      ((refreshStep JobState.Running JobState.Completed).report
          = some TaskStatus.Paused ↔
        JobState.Running ≠ JobState.Suspended ∧
          JobState.Completed = JobState.Suspended) ∧
      ((refreshStep JobState.Running JobState.Completed).report
          = some TaskStatus.Failed ↔
        JobState.Completed = JobState.Failed ∨
          JobState.Completed = JobState.Unknown) ∧
      ((refreshStep JobState.Running JobState.Completed).report
          = some TaskStatus.Completed ↔
        JobState.Completed = JobState.Completed) ∧
      ((refreshStep JobState.Running JobState.Completed).newStored = none ↔
        JobState.Completed = JobState.Failed ∨
          JobState.Completed = JobState.Unknown ∨
            JobState.Completed = JobState.Completed)) :=
  ⟨by decide,
    refresh_idempotent_and_transitions JobState.Running JobState.Completed
      (by decide)⟩

/-! ## Supervisor block accounting (download_file/supervisor.rs and
upload_file/supervisor.rs) -/

/-- Observation point of a transfer supervisor: the multiset of block
indices still in the `ArrayQueue`, the indices popped by spawned workers
and still outstanding, and the indices whose transfer completed cleanly. -/
structure SupervisorState where
  queue : Multiset Nat
  outstanding : Multiset Nat
  completed : Multiset Nat
deriving DecidableEq

/-- Atomic transitions of the supervisor/worker system, common to
`DownloadFileSupervisor`/`DownloadFileWorker` (download supervisor.rs) and
`UploadFileSupervisor`/`UploadFileWorker` (upload supervisor.rs):
`spawn` is the supervisor loop popping an index from the queue for a new
worker (lines 56-72 and 60-76); `finish` is a worker whose `run` returned
`Ok`, the `else` arm of the select in `Worker::start`, which does not
re-queue; `fail` is the `Err` arm and `cancel` the `cancelled` arm, each
of which calls `revert_block_index`, pushing the index back onto the queue
before the worker exits (lines 120-134 and 117-131). -/
inductive SupervisorStep : SupervisorState → SupervisorState → Prop
  | spawn (i : Nat) (s : SupervisorState) (h : i ∈ s.queue) :
      SupervisorStep s ⟨s.queue.erase i, i ::ₘ s.outstanding, s.completed⟩
  | finish (i : Nat) (s : SupervisorState) (h : i ∈ s.outstanding) :
      SupervisorStep s ⟨s.queue, s.outstanding.erase i, i ::ₘ s.completed⟩
  | fail (i : Nat) (s : SupervisorState) (h : i ∈ s.outstanding) :
      SupervisorStep s ⟨i ::ₘ s.queue, s.outstanding.erase i, s.completed⟩
  | cancel (i : Nat) (s : SupervisorState) (h : i ∈ s.outstanding) :
      SupervisorStep s ⟨i ::ₘ s.queue, s.outstanding.erase i, s.completed⟩

/-- Initial supervisor state for block count `N`:
`DownloadFileSupervisor::new` fills the queue with `0..block_count`
(download supervisor.rs lines 98-102; the upload analogue receives a queue
prefilled the same way or with the missing shard set). -/
def supervisorInit (N : Nat) : SupervisorState :=
  ⟨Multiset.range N, 0, 0⟩

/-- States reachable by a supervisor created with block count `N`. -/
inductive SupervisorReachable (N : Nat) : SupervisorState → Prop
  | init : SupervisorReachable N (supervisorInit N)
  | step {s t : SupervisorState} (hs : SupervisorReachable N s)
      (h : SupervisorStep s t) : SupervisorReachable N t

/-- C2: for a supervisor created with block count `N`, at every reachable
observation point (indices popped and still outstanding) + (indices in the
queue) + (indices confirmed completed) equals `N`; the step relation
records that a worker exiting on error or cancellation pushes its index
back onto the queue, while a cleanly completing worker moves it to the
completed set without re-queueing. -/
theorem supervisorStep_card {s t : SupervisorState} (h : SupervisorStep s t) :
    Multiset.card t.queue + Multiset.card t.outstanding
      + Multiset.card t.completed
      = Multiset.card s.queue + Multiset.card s.outstanding
        + Multiset.card s.completed := by
  cases h with
  | spawn i _ hmem =>
    have h1 : (s.queue.erase i).card = s.queue.card - 1 :=
      Multiset.card_erase_of_mem hmem
    have h2 : 0 < s.queue.card :=
      Multiset.card_pos_iff_exists_mem.2 ⟨i, hmem⟩
    simp only [Multiset.card_cons, h1]
    omega
  | finish i _ hmem =>
    have h1 : (s.outstanding.erase i).card = s.outstanding.card - 1 :=
      Multiset.card_erase_of_mem hmem
    have h2 : 0 < s.outstanding.card :=
      Multiset.card_pos_iff_exists_mem.2 ⟨i, hmem⟩
    simp only [Multiset.card_cons, h1]
    omega
  | fail i _ hmem =>
    have h1 : (s.outstanding.erase i).card = s.outstanding.card - 1 :=
      Multiset.card_erase_of_mem hmem
    have h2 : 0 < s.outstanding.card :=
      Multiset.card_pos_iff_exists_mem.2 ⟨i, hmem⟩
    simp only [Multiset.card_cons, h1]
    omega
  | cancel i _ hmem =>
    have h1 : (s.outstanding.erase i).card = s.outstanding.card - 1 :=
      Multiset.card_erase_of_mem hmem
    have h2 : 0 < s.outstanding.card :=
      Multiset.card_pos_iff_exists_mem.2 ⟨i, hmem⟩
    simp only [Multiset.card_cons, h1]
    omega

/-- C2: for a supervisor created with block count `N`, at every reachable
observation point (indices popped and still outstanding) + (indices in the
queue) + (indices confirmed completed) equals `N`; the step relation
records that a worker exiting on error or cancellation pushes its index
back onto the queue, while a cleanly completing worker moves it to the
completed set without re-queueing. -/
theorem supervisor_block_conservation (N : Nat) (s : SupervisorState)
    (h : SupervisorReachable N s) :
    Multiset.card s.queue + Multiset.card s.outstanding
      + Multiset.card s.completed = N := by
  induction h with
  | init => simp [supervisorInit]
  | step hs hstep ih => rw [supervisorStep_card hstep]; exact ih

theorem supervisor_block_conservation_witness :
    SupervisorReachable 2
      ⟨(Multiset.range 2).erase 0, 0 ::ₘ (0 : Multiset Nat), (0 : Multiset Nat)⟩ ∧
    Multiset.card ((Multiset.range 2).erase 0)
      + Multiset.card (0 ::ₘ (0 : Multiset Nat))
      + Multiset.card (0 : Multiset Nat) = 2 := by
  have hr : SupervisorReachable 2
      ⟨(Multiset.range 2).erase 0, 0 ::ₘ (0 : Multiset Nat), (0 : Multiset Nat)⟩ :=
    SupervisorReachable.step SupervisorReachable.init
      (SupervisorStep.spawn 0 (supervisorInit 2) (by decide))
  exact ⟨hr, supervisor_block_conservation 2 _ hr⟩

/-! ## Upload protocol (upload_file/mod.rs, upload_file/supervisor.rs) -/

/-- File metadata identifiers (UUIDs in the source) as opaque numbers. -/
abbrev FileId := Nat

/-- Server reply status codes, from `dto/reply.rs`. -/
def StatusCode.OK : Nat := 0

def StatusCode.FLASH_UPLOAD : Nat := 100

def StatusCode.INCOMPLETE_UPLOAD : Nat := 101

def StatusCode.INCOMPLETE_OLD_UPLOAD : Nat := 102

/-- A file-storage request issued by the upload path, carrying only the
fields this development reasons about. -/
inductive UploadRequest
  | prepare (fileMetadataId : FileId)
  | partialUploadInfo (fileId : FileId)
  | partialUpload (nth : Nat) (fileMetadataId : FileId)
deriving DecidableEq, Repr

/-- The file id a request carries. -/
def requestFileId : UploadRequest → FileId
  | UploadRequest.prepare fid => fid
  | UploadRequest.partialUploadInfo fid => fid
  | UploadRequest.partialUpload _ fid => fid

/-- The prepare/decode/upload sequence of `UploadFileService::run` (upload
mod.rs lines 197-268) together with the workers' multipart POSTs (upload
supervisor.rs lines 162-182), as the list of file-storage requests issued
(the workers' concurrent POSTs flattened in queue order) paired with the
value `run` computes.  The Prepare POST carries the body `file_id`; on
`OK` the queue is `0..count`; on `FLASH_UPLOAD` `run` returns at once; on
`INCOMPLETE_UPLOAD` the `PartialUploadInfo` GET and the shard POSTs carry
the body `file_id`; on `INCOMPLETE_OLD_UPLOAD` the code first overwrites
`task_file.file_id` with the reply's `meta_id` (mod.rs line 222, failing
when the reply has no content), so the GET and every POST carry the
`meta_id`; any other status fails with the reply's error. -/
def uploadRunProtocol (bodyId : FileId) (blockCount : Nat) (status : Nat)
    (metaId : Option FileId) (shards : List Nat) :
    List UploadRequest × Except String Unit :=
  let prep := [UploadRequest.prepare bodyId]
  if status = StatusCode.OK then
    (prep ++ (List.range blockCount).map
        (fun i => UploadRequest.partialUpload i bodyId),
      Except.ok ())
  else if status = StatusCode.FLASH_UPLOAD then
    (prep, Except.ok ())
  else if status = StatusCode.INCOMPLETE_UPLOAD then
    (prep ++ UploadRequest.partialUploadInfo bodyId ::
        shards.map (fun i => UploadRequest.partialUpload i bodyId),
      Except.ok ())
  else if status = StatusCode.INCOMPLETE_OLD_UPLOAD then
    match metaId with
    | some m =>
      (prep ++ UploadRequest.partialUploadInfo m ::
          shards.map (fun i => UploadRequest.partialUpload i m),
        Except.ok ())
    | none => (prep, Except.error "server reply carries no content")
  else
    (prep, Except.error "server error")

/-- `UploadFileService::run` from the file open onward (upload mod.rs lines
185-268), over an environment giving whether the local file exists, the
prepare reply and the shard set.  The preceding scp pull and the `Started`
status report touch no file-storage endpoint and are not modelled.  When
the file is absent, the `io::ErrorKind::NotFound` arm returns the optional
message or propagates the error (lines 185-191) before any file-storage
request is made. -/
def uploadRun (fileExists optional : Bool) (bodyId : FileId)
    (blockCount : Nat) (status : Nat) (metaId : Option FileId)
    (shards : List Nat) : List UploadRequest × Except String String :=
  if !fileExists then
    if optional then ([], Except.ok "File not found but it is optional")
    else ([], Except.error "No such file or directory")
  else
    let res := uploadRunProtocol bodyId blockCount status metaId shards
    (res.1, res.2.map fun _ => "")

/-- How `UploadFileService::start` converts `run`'s result into the final
status report (upload mod.rs lines 103-115): `Ok("")` reports `Completed`
with no message, `Ok("cancel")` reports nothing (the cancel path already
reported), any other `Ok(msg)` reports `Completed` with the message, and
`Err(e)` reports `Failed` with the error text. -/
def uploadStartReport : Except String String → Option (TaskStatus × Option String)
  | Except.ok "" => some (TaskStatus.Completed, none)
  | Except.ok "cancel" => none
  | Except.ok msg => some (TaskStatus.Completed, some msg)
  | Except.error e => some (TaskStatus.Failed, some e)

/-- C3: when the Prepare reply has status `INCOMPLETE_OLD_UPLOAD` carrying
`meta_id = m`, the request trace is exactly the Prepare POST (with the
original body id) followed by the `PartialUploadInfo` GET under `m` and
one multipart POST per missing shard whose `file_metadata_id` field is
`m` — every request after the Prepare carries `m`, not the body id. -/
theorem incomplete_old_upload_adopts_meta_id (bodyId m : FileId)
    (blockCount : Nat) (shards : List Nat) :
    (uploadRunProtocol bodyId blockCount StatusCode.INCOMPLETE_OLD_UPLOAD
        (some m) shards).1
      = UploadRequest.prepare bodyId :: UploadRequest.partialUploadInfo m ::
          shards.map (fun i => UploadRequest.partialUpload i m) ∧
    ∀ r ∈ (uploadRunProtocol bodyId blockCount
        StatusCode.INCOMPLETE_OLD_UPLOAD (some m) shards).1.tail,
      requestFileId r = m := by
  constructor
  · rfl
  · intro r hr
    simp only [uploadRunProtocol] at hr
    norm_num [StatusCode.INCOMPLETE_OLD_UPLOAD, StatusCode.OK,
      StatusCode.FLASH_UPLOAD, StatusCode.INCOMPLETE_UPLOAD] at hr
    rcases hr with h | ⟨i, _, h⟩ <;> subst h <;> rfl

/-- C4: when the local file does not exist and the body is optional,
`run` issues no file-storage request and `start` reports `Completed` with
the message "File not found but it is optional"; when the file is missing
and the body is not optional, `run` still issues no request and `start`
reports `Failed`. -/
theorem optional_missing_file_completed (bodyId : FileId)
    (blockCount : Nat) (status : Nat) (metaId : Option FileId)
    (shards : List Nat) :
    (uploadRun false true bodyId blockCount status metaId shards).1 = [] ∧
    uploadStartReport
        (uploadRun false true bodyId blockCount status metaId shards).2
      = some (TaskStatus.Completed,
          some "File not found but it is optional") ∧
    (uploadRun false false bodyId blockCount status metaId shards).1 = [] ∧
    (uploadStartReport
        (uploadRun false false bodyId blockCount status metaId shards).2).map
          Prod.fst
      = some TaskStatus.Failed := by
  refine ⟨rfl, ?_, rfl, rfl⟩
  rfl

/-! ## Supervisor registration in id2supervisor (download_file/mod.rs
versus upload_file/mod.rs) -/

/-- The task ids present in the download executor's `id2supervisor` map at
any point while a ranged download's supervisor is running, starting from
an empty map: `DownloadFileService::run` creates the supervisor (download
mod.rs line 210) and immediately awaits `supervisor.run()` (line 218); no
statement of `run` inserts into `id2supervisor`, so the map stays empty
for the whole transfer (`start`, line 90, only ever removes the id). -/
def downloadInFlightSupervisors (_id : Nat) : List Nat := []

/-- The same observation for the upload executor:
`UploadFileService::run` inserts the supervisor under the task id (upload
mod.rs line 262) before awaiting `supervisor.run()` (line 264). -/
def uploadInFlightSupervisors (id : Nat) : List Nat := [id]

/-- The lookup performed by `DownloadFileService::pause` (download mod.rs
lines 99-110; `resume` and `cancel` perform the same `get`/`remove` with
the same context message). -/
def downloadPauseLookup (m : List Nat) (id : Nat) : Except String Unit :=
  if id ∈ m then Except.ok ()
  else Except.error "Download file supervisor not found"

/-- C1: while a ranged download is in flight the executor's
`id→supervisor` map does not contain the task id — no supervisor is ever
registered, not exactly one — so a pause (or resume or cancel) arriving
during the transfer fails with "Download file supervisor not found"; the
parallel upload executor does register its supervisor under the task
id. -/
theorem download_supervisor_never_registered (id : Nat) :
    downloadInFlightSupervisors id = [] ∧
    downloadPauseLookup (downloadInFlightSupervisors id) id
      = Except.error "Download file supervisor not found" ∧
    uploadInFlightSupervisors id = [id] := by
  refine ⟨rfl, ?_, rfl⟩
  simp [downloadPauseLookup, downloadInFlightSupervisors]

theorem pausable_poll_double_check_witness :
    ((pausablePoll true true).2 = PollOutcome.pending ↔
      true = true ∧ true = true) ∧
    (true = false → pausablePoll true true = (false, PollOutcome.polledInner)) ∧
    ((pausablePoll true true).1 = true ↔ true = true) ∧
    (true = true → true = false →
      (pausablePoll true true).2 = PollOutcome.polledInner) :=
  pausable_poll_double_check true true

theorem incomplete_old_upload_adopts_meta_id_witness :
    (uploadRunProtocol 1 2 StatusCode.INCOMPLETE_OLD_UPLOAD (some 2) [1]).1
      = UploadRequest.prepare 1 :: UploadRequest.partialUploadInfo 2 ::
          [1].map (fun i => UploadRequest.partialUpload i 2) ∧
    ∀ r ∈ (uploadRunProtocol 1 2 StatusCode.INCOMPLETE_OLD_UPLOAD
        (some 2) [1]).1.tail,
      requestFileId r = 2 :=
  incomplete_old_upload_adopts_meta_id 1 2 2 [1]
